import Mathlib

/-!
The libnotify notifier of yubikey-touch-detector.

A shallow embedding of `notifier/libnotify.go`: the event loop of
`SetupLibnotifyNotifier` (one iteration per received `Message`), the
`connectDBus` helper and the `reset` callback it installs.

The D-Bus transport is external.  Every answer it can give is an input of the
model: the results of `SendNotification`, `CloseNotification` and of the four
fallible steps of `connectDBus` are read from a `Transport` record, one record
per loop iteration.  Every call the loop issues is recorded in a trace of
`Call` values.  A `nil` notifier (what `connectDBus` returns on failure) is the
session `none`; a method call on it is a run-time panic, modelled by the
iteration having no next state.

`iteration` is the loop body run without interference.  `reset` runs on the
notifier's goroutine: `loop` delivers its signals between two iterations, and
`iterationWith` also while a call of the iteration is in flight.
-/

namespace notifier

/-! ## Data model -/

/-- Modelled from the spec: the `Message` type and its six constants are
declared in a file of package `notifier` other than `libnotify.go`; the spec
describes them as a closed set of paired ON/OFF tags, one pair per source
class. -/
inductive Message
  | GPG_ON
  | GPG_OFF
  | U2F_ON
  | U2F_OFF
  | HMAC_ON
  | HMAC_OFF
  deriving DecidableEq, Repr

/-- Identity of one `(conn, notifier)` pair handed out by a successful
`connectDBus`. -/
abbrev Session := Nat

/-- The outcome of the test `activeTouchWaits > 0` (line 42). -/
inductive Decision
  | Visible
  | Hidden
  deriving DecidableEq, Repr

/-- The answers of the four fallible steps of `connectDBus`:
`dbus.SessionBusPrivate`, `conn.Auth`, `conn.Hello` and `notify.New`. -/
structure ConnectEnv where
  SessionBusPrivate : Option Session
  Auth : Bool
  Hello : Bool
  New : Bool
  deriving DecidableEq, Repr

/-- What the transport answers during one loop iteration.  `send` is the result
of the first `SendNotification` (`none` is an error, `some id` the returned
id), `reconnect` the environment of the `connectDBus` call made after a
failure, `resend` the result of the `SendNotification` retried after the
reconnect, `close` whether `CloseNotification` returned without error. -/
structure Transport where
  send : Option Nat
  reconnect : ConnectEnv
  resend : Option Nat
  close : Bool
  deriving DecidableEq, Repr

/-- One call issued by the loop, with its arguments and its result. -/
inductive Call
  | connectDBus (result : Option Session)
  | SendNotification (sess : Session) (replacesID : Nat) (result : Option Nat)
  | CloseNotification (sess : Session) (id : Nat) (ok : Bool)
  | notifierClose (sess : Session)
  | connClose (sess : Session)
  deriving DecidableEq, Repr

/-- The variables of `SetupLibnotifyNotifier` that live across iterations:
`activeTouchWaits`, the shared cell `notification.ReplacesID`, and the pair
`conn, notifier` (`none` when both are `nil`). -/
structure State where
  activeTouchWaits : Int
  ReplacesID : Nat
  session : Option Session
  deriving DecidableEq, Repr

/-- What one iteration did: the decision it took, the calls it issued, and the
state in which the next iteration starts (`none`: the iteration panicked on a
`nil` notifier). -/
structure Result where
  decision : Decision
  calls : List Call
  next : Option State
  deriving DecidableEq, Repr

/-! ## Operations -/

/-- The function `atomic.CompareAndSwapUint32(addr, old, new)`, as the new
content of the cell. -/
def CompareAndSwapUint32 (addr old new : Nat) : Nat :=
  if addr = old then new else addr

/-- The closure `reset` of `connectDBus` (lines 90-92), run by the notifier on
a `NotificationClosedSignal` carrying `msgID`. -/
def reset (replacesID msgID : Nat) : Nat :=
  CompareAndSwapUint32 replacesID msgID 0

/-- The function `connectDBus` (lines 74-105), by its returned pair: `none` is
`nil, nil, err`.  It receives `replacesID` only to capture it in `reset`; it
does not write to it. -/
def connectDBus (e : ConnectEnv) : Option Session :=
  match e.SessionBusPrivate with
  | none => none
  | some conn =>
    if e.Auth = false then none
    else if e.Hello = false then none
    else if e.New = false then none
    else some conn

/-- Lines 36-41: the update of `activeTouchWaits` for a received value. -/
def count (activeTouchWaits : Int) (value : Message) : Int :=
  let n :=
    if value = Message.GPG_ON ∨ value = Message.U2F_ON ∨ value = Message.HMAC_ON then
      activeTouchWaits + 1
    else activeTouchWaits
  if value = Message.GPG_OFF ∨ value = Message.U2F_OFF ∨ value = Message.HMAC_OFF then
    n - 1
  else n

/-- Lines 46-48 and 63-65: close the notifier and the connection of session
`c`, then assign the result of `connectDBus` to `conn, notifier`. -/
def reconnect (s : State) (c : Session) (e : ConnectEnv) : List Call × State :=
  ([Call.notifierClose c, Call.connClose c, Call.connectDBus (connectDBus e)],
   { s with session := connectDBus e })

/-- The body of the `for` loop (lines 35-70) for the received `value`. -/
def iteration (s : State) (value : Message) (t : Transport) : Result :=
  let n := count s.activeTouchWaits value
  let s1 : State := { s with activeTouchWaits := n }
  if n > 0 then
    match s.session with
    | none => ⟨Decision.Visible, [], none⟩
    | some c =>
      match t.send with
      | some id =>
        ⟨Decision.Visible, [Call.SendNotification c s.ReplacesID (some id)],
          some { s1 with ReplacesID := CompareAndSwapUint32 s.ReplacesID 0 id }⟩
      | none =>
        let r := reconnect s1 c t.reconnect
        let calls := Call.SendNotification c s.ReplacesID none :: r.1
        match r.2.session with
        | none => ⟨Decision.Visible, calls, some r.2⟩
        | some c2 =>
          match t.resend with
          | none =>
            ⟨Decision.Visible, calls ++ [Call.SendNotification c2 r.2.ReplacesID none],
              some r.2⟩
          | some id =>
            ⟨Decision.Visible,
              calls ++ [Call.SendNotification c2 r.2.ReplacesID (some id)],
              some { r.2 with ReplacesID := CompareAndSwapUint32 r.2.ReplacesID 0 id }⟩
  else if s.ReplacesID ≠ 0 then
    match s.session with
    | none => ⟨Decision.Hidden, [], none⟩
    | some c =>
      if t.close = true then
        ⟨Decision.Hidden, [Call.CloseNotification c s.ReplacesID true], some s1⟩
      else
        let r := reconnect s1 c t.reconnect
        ⟨Decision.Hidden, Call.CloseNotification c s.ReplacesID false :: r.1, some r.2⟩
  else ⟨Decision.Hidden, [], some s1⟩

/-- One input of the running module: a value received on the `touch` channel
together with the transport's answers for that iteration, or a
`NotificationClosedSignal` delivered to `reset` between two iterations. -/
inductive Step
  | event (value : Message) (t : Transport)
  | closed (id : Nat)
  deriving DecidableEq, Repr

/-- Where the module stands once its inputs are used up. -/
inductive Status
  | returned
  | waiting (s : State)
  | panicked
  deriving DecidableEq, Repr

/-- The observable history of a run. -/
structure Run where
  calls : List Call
  decisions : List Decision
  status : Status
  deriving DecidableEq, Repr

/-- The `for` loop (lines 34-71) over a finite list of inputs. -/
def loop (s : State) : List Step → Run
  | [] => ⟨[], [], Status.waiting s⟩
  | Step.closed id :: rest => loop { s with ReplacesID := reset s.ReplacesID id } rest
  | Step.event value t :: rest =>
    let r := iteration s value t
    match r.next with
    | none => ⟨r.calls, [r.decision], Status.panicked⟩
    | some s2 =>
      let run := loop s2 rest
      ⟨r.calls ++ run.calls, r.decision :: run.decisions, run.status⟩

/-- The function `SetupLibnotifyNotifier` (lines 14-72): the initial
`connectDBus`, the early return when it fails, and the loop started with
`activeTouchWaits = 0` and `notification.ReplacesID = 0`. -/
def SetupLibnotifyNotifier (init : ConnectEnv) (steps : List Step) : Run :=
  match connectDBus init with
  | none => ⟨[Call.connectDBus none], [], Status.returned⟩
  | some c =>
    let run := loop ⟨0, 0, some c⟩ steps
    ⟨Call.connectDBus (some c) :: run.calls, run.decisions, run.status⟩

/-! ## Observations used by the statements -/

/-- The values received on the channel, in order. -/
def eventsOf : List Step → List Message
  | [] => []
  | Step.event value _ :: rest => value :: eventsOf rest
  | Step.closed _ :: rest => eventsOf rest

/-- Whether a value is one of the three ON constants. -/
def isON (value : Message) : Bool :=
  decide (value = Message.GPG_ON ∨ value = Message.U2F_ON ∨ value = Message.HMAC_ON)

/-- Whether a value is one of the three OFF constants. -/
def isOFF (value : Message) : Bool :=
  decide (value = Message.GPG_OFF ∨ value = Message.U2F_OFF ∨ value = Message.HMAC_OFF)

/-- Number of ON events of a sequence, all source classes together. -/
def onCount (evs : List Message) : Nat := evs.countP isON

/-- Number of OFF events of a sequence, all source classes together. -/
def offCount (evs : List Message) : Nat := evs.countP isOFF

/-- The result of the test `activeTouchWaits > 0` for a counter value. -/
def decisionOf (activeTouchWaits : Int) : Decision :=
  if activeTouchWaits > 0 then Decision.Visible else Decision.Hidden

/-- The counter after a sequence of events, starting from `n`. -/
def countAll (n : Int) : List Message → Int
  | [] => n
  | value :: rest => countAll (count n value) rest

/-- The decisions after each event of a sequence, the counter starting from
`n`. -/
def decisionsFrom (n : Int) : List Message → List Decision
  | [] => []
  | value :: rest => decisionOf (count n value) :: decisionsFrom (count n value) rest

/-- A call that is a `SendNotification`. -/
def isShow : Call → Bool
  | Call.SendNotification _ _ _ => true
  | _ => false

/-- A call that is a `connectDBus`. -/
def isConnect : Call → Bool
  | Call.connectDBus _ => true
  | _ => false

/-- Number of events of a sequence at which the decision changes from Hidden
to Visible, `prev` being the decision before the first event. -/
def visibleTransitions (prev : Decision) : List Decision → Nat
  | [] => 0
  | d :: rest =>
    (if prev = Decision.Hidden ∧ d = Decision.Visible then 1 else 0)
      + visibleTransitions d rest

/-- Every input is an event whose first `SendNotification` and whose
`CloseNotification` succeed: no transport failure, no remote dismissal. -/
def allSucceed : List Step → Bool
  | [] => true
  | Step.event _ t :: rest => t.send.isSome && t.close && allSucceed rest
  | Step.closed _ :: _ => false

/-- An environment in which `connectDBus` succeeds with session `c`. -/
def connectOk (c : Session) : ConnectEnv := ⟨some c, true, true, true⟩

/-- An environment in which `connectDBus` fails at its first step. -/
def connectFail : ConnectEnv := ⟨none, true, true, true⟩

/-- A transport on which every call of the iteration succeeds, `id` being the
id returned by `SendNotification`. -/
def transportOk (id : Nat) : Transport := ⟨some id, connectOk 1, some id, true⟩

/-- A transport on which every call of the iteration fails. -/
def transportDown : Transport := ⟨none, connectFail, none, false⟩

/-- The `NotificationClosedSignal` ids handed to `reset` on the notifier's
goroutine while a call of the iteration is in flight: during the first
`SendNotification`, during the reconnect (lines 46-48 and 63-65), during the
retried `SendNotification`, and during `CloseNotification`. -/
structure Signals where
  send : List Nat
  reconnect : List Nat
  resend : List Nat
  close : List Nat
  deriving DecidableEq, Repr

/-- No signal arrives during the iteration. -/
def noSignals : Signals := ⟨[], [], [], []⟩

/-- The cell `notification.ReplacesID` after `reset` has run for each id of
`ids`, in order. -/
def deliver (replacesID : Nat) (ids : List Nat) : Nat :=
  ids.foldl reset replacesID

/-- The body of the `for` loop (lines 35-70) with `reset` running concurrently:
the argument of a call is the handle read when the call is issued, the signals
of `g` are delivered while the call is in flight, and the compare-and-swap of
line 59 acts on the cell as the signals left it. -/
def iterationWith (s : State) (value : Message) (t : Transport) (g : Signals) : Result :=
  let n := count s.activeTouchWaits value
  if n > 0 then
    match s.session with
    | none => ⟨Decision.Visible, [], none⟩
    | some c =>
      let h1 := deliver s.ReplacesID g.send
      match t.send with
      | some id =>
        ⟨Decision.Visible, [Call.SendNotification c s.ReplacesID (some id)],
          some ⟨n, CompareAndSwapUint32 h1 0 id, some c⟩⟩
      | none =>
        let r := reconnect ⟨n, deliver h1 g.reconnect, some c⟩ c t.reconnect
        let calls := Call.SendNotification c s.ReplacesID none :: r.1
        match r.2.session with
        | none => ⟨Decision.Visible, calls, some r.2⟩
        | some c2 =>
          let h3 := deliver r.2.ReplacesID g.resend
          match t.resend with
          | none =>
            ⟨Decision.Visible, calls ++ [Call.SendNotification c2 r.2.ReplacesID none],
              some { r.2 with ReplacesID := h3 }⟩
          | some id =>
            ⟨Decision.Visible,
              calls ++ [Call.SendNotification c2 r.2.ReplacesID (some id)],
              some { r.2 with ReplacesID := CompareAndSwapUint32 h3 0 id }⟩
  else if s.ReplacesID ≠ 0 then
    match s.session with
    | none => ⟨Decision.Hidden, [], none⟩
    | some c =>
      let h1 := deliver s.ReplacesID g.close
      if t.close = true then
        ⟨Decision.Hidden, [Call.CloseNotification c s.ReplacesID true], some ⟨n, h1, some c⟩⟩
      else
        let r := reconnect ⟨n, deliver h1 g.reconnect, some c⟩ c t.reconnect
        ⟨Decision.Hidden, Call.CloseNotification c s.ReplacesID false :: r.1, some r.2⟩
  else ⟨Decision.Hidden, [], some { s with activeTouchWaits := n }⟩

/-! ## The aggregator -/

theorem count_eq (n : Int) (value : Message) :
    count n value = n + (if isON value then 1 else 0) - (if isOFF value then 1 else 0) := by
  cases value <;> simp [count, isON, isOFF]

theorem countAll_eq (n : Int) (evs : List Message) :
    countAll n evs = n + (onCount evs : Int) - (offCount evs : Int) := by
  induction evs generalizing n with
  | nil => simp [countAll, onCount, offCount]
  | cons value rest ih =>
    rw [countAll, ih, count_eq]
    simp only [onCount, offCount, List.countP_cons]
    cases h1 : isON value <;> cases h2 : isOFF value <;> simp <;> omega

theorem decisionsFrom_length (n : Int) (evs : List Message) :
    (decisionsFrom n evs).length = evs.length := by
  induction evs generalizing n with
  | nil => rfl
  | cons value rest ih => simp [decisionsFrom, ih]

theorem decisionsFrom_getElem? (n : Int) (evs : List Message) (i : Nat) (d : Decision)
    (h : (decisionsFrom n evs)[i]? = some d) :
    d = decisionOf (countAll n (evs.take (i + 1))) := by
  induction evs generalizing n i with
  | nil => simp [decisionsFrom] at h
  | cons value rest ih =>
    cases i with
    | zero =>
      simp [decisionsFrom] at h
      simp [countAll, h]
    | succ j =>
      simp [decisionsFrom] at h
      simpa [countAll] using ih _ _ h

theorem decisionOf_visible_iff (n : Int) : decisionOf n = Decision.Visible ↔ 0 < n := by
  unfold decisionOf
  split <;> simp_all

/-! ## The loop -/

theorem iteration_decision (s : State) (value : Message) (t : Transport) :
    (iteration s value t).decision = decisionOf (count s.activeTouchWaits value) := by
  unfold iteration decisionOf
  simp only
  split
  · split
    · rfl
    · split
      · rfl
      · split
        · rfl
        · split <;> rfl
  · split
    · split
      · rfl
      · split <;> rfl
    · rfl

theorem iteration_counter (s s2 : State) (value : Message) (t : Transport)
    (h : (iteration s value t).next = some s2) :
    s2.activeTouchWaits = count s.activeTouchWaits value := by
  unfold iteration at h
  simp only [reconnect] at h
  split at h
  · split at h
    · simp at h
    · split at h
      · simp at h; rw [← h]
      · split at h
        · simp at h; rw [← h]
        · split at h <;> (simp at h; rw [← h])
  · split at h
    · split at h
      · simp at h
      · split at h <;> (simp at h; rw [← h])
    · simp at h; rw [← h]

theorem loop_decisions (s : State) (steps : List Step) :
    (loop s steps).decisions =
      (decisionsFrom s.activeTouchWaits (eventsOf steps)).take (loop s steps).decisions.length := by
  induction steps generalizing s with
  | nil => simp [loop]
  | cons st rest ih =>
    cases st with
    | closed id => simpa [loop, eventsOf] using ih _
    | event value t =>
      simp only [loop, eventsOf, decisionsFrom]
      cases hn : (iteration s value t).next with
      | none => simp [iteration_decision]
      | some s2 =>
        simp only [List.length_cons, List.take_succ_cons]
        rw [iteration_decision, ← iteration_counter s s2 value t hn]
        congr 1
        exact ih s2

theorem loop_waiting (s s2 : State) (steps : List Step)
    (h : (loop s steps).status = Status.waiting s2) :
    (loop s steps).decisions.length = (eventsOf steps).length ∧
      s2.activeTouchWaits = countAll s.activeTouchWaits (eventsOf steps) := by
  induction steps generalizing s with
  | nil =>
    simp [loop] at h
    simp [loop, eventsOf, countAll, h]
  | cons st rest ih =>
    cases st with
    | closed id => simpa [loop, eventsOf] using ih _ h
    | event value t =>
      simp only [loop, eventsOf, countAll] at h ⊢
      cases hn : (iteration s value t).next with
      | none => simp [hn] at h
      | some s3 =>
        simp only [hn] at h
        have := ih s3 h
        rw [iteration_counter s s3 value t hn] at this
        simpa using this

theorem decision_visible_iff (s : State) (value : Message) (t : Transport) :
    (iteration s value t).decision = Decision.Visible ↔ 0 < count s.activeTouchWaits value := by
  rw [iteration_decision, decisionOf_visible_iff]

theorem decision_hidden_iff (s : State) (value : Message) (t : Transport) :
    (iteration s value t).decision = Decision.Hidden ↔ ¬ 0 < count s.activeTouchWaits value := by
  rw [iteration_decision]
  unfold decisionOf
  split <;> simp_all

/-! ## Claims -/

/-- C1: whatever the transport answers, the i-th decision the loop of
`SetupLibnotifyNotifier` takes is Visible exactly when, among the first i+1
events, the ON events outnumber the OFF events; a run that is still waiting for
events has taken one decision per event; the counter is not clamped at zero
(`[GPG_OFF, GPG_ON]` gives Hidden, Hidden), and the two scenarios of the
specification give Visible, Visible, Visible (counts 1, 2, 1) and Visible,
Hidden. -/
theorem C1_decision_visible_iff_on_exceeds_off :
    (∀ (init : ConnectEnv) (steps : List Step) (i : Nat) (d : Decision),
        (SetupLibnotifyNotifier init steps).decisions[i]? = some d →
        (d = Decision.Visible ↔
          offCount ((eventsOf steps).take (i + 1)) < onCount ((eventsOf steps).take (i + 1))))
      ∧ (∀ (init : ConnectEnv) (steps : List Step) (s : State),
          (SetupLibnotifyNotifier init steps).status = Status.waiting s →
          (SetupLibnotifyNotifier init steps).decisions.length = (eventsOf steps).length)
      ∧ (∀ (evs : List Message) (i : Nat), i < evs.length →
          (decisionsFrom 0 evs)[i]? =
            some (if offCount (evs.take (i + 1)) < onCount (evs.take (i + 1))
              then Decision.Visible else Decision.Hidden))
      ∧ (∀ t1 t2 : Transport,
          (SetupLibnotifyNotifier (connectOk 0)
            [Step.event Message.GPG_OFF t1, Step.event Message.GPG_ON t2]).decisions
            = [Decision.Hidden, Decision.Hidden])
      ∧ decisionsFrom 0 [Message.GPG_ON, Message.U2F_ON, Message.GPG_OFF]
          = [Decision.Visible, Decision.Visible, Decision.Visible]
      ∧ [countAll 0 [Message.GPG_ON], countAll 0 [Message.GPG_ON, Message.U2F_ON],
          countAll 0 [Message.GPG_ON, Message.U2F_ON, Message.GPG_OFF]] = [1, 2, 1]
      ∧ (SetupLibnotifyNotifier (connectOk 0)
            [Step.event Message.GPG_ON (transportOk 5), Step.event Message.U2F_ON (transportOk 5),
              Step.event Message.GPG_OFF (transportOk 5)]).decisions
          = [Decision.Visible, Decision.Visible, Decision.Visible]
      ∧ (SetupLibnotifyNotifier (connectOk 0)
            [Step.event Message.GPG_ON (transportOk 5),
              Step.event Message.GPG_OFF (transportOk 5)]).decisions
          = [Decision.Visible, Decision.Hidden] := by
  refine ⟨?_, ?_, ?_, ?_, by decide, by decide, by decide, by decide⟩
  · intro init steps i d h
    unfold SetupLibnotifyNotifier at h
    cases hc : connectDBus init with
    | none => simp [hc] at h
    | some c =>
      simp only [hc] at h
      rw [loop_decisions, List.getElem?_take] at h
      split at h
      · have := decisionsFrom_getElem? _ _ _ _ h
        rw [this, decisionOf_visible_iff, countAll_eq]
        simp
      · simp at h
  · intro init steps s h
    unfold SetupLibnotifyNotifier at h ⊢
    cases hc : connectDBus init with
    | none => simp [hc] at h
    | some c =>
      simp only [hc] at h ⊢
      exact (loop_waiting _ _ _ h).1
  · intro evs i hi
    have hlen : i < (decisionsFrom 0 evs).length := by rw [decisionsFrom_length]; exact hi
    rw [List.getElem?_eq_getElem hlen]
    have := decisionsFrom_getElem? 0 evs i _ (List.getElem?_eq_getElem hlen)
    rw [this, countAll_eq]
    unfold decisionOf
    simp
  · intro t1 t2
    simp [SetupLibnotifyNotifier, connectDBus, connectOk, loop, iteration, count]

/-- Witness of C1 on the run `[GPG_OFF, GPG_ON]`: the second decision is
Hidden. -/
theorem C1_witness :
    (SetupLibnotifyNotifier (connectOk 0)
        [Step.event Message.GPG_OFF (transportOk 5),
          Step.event Message.GPG_ON (transportOk 5)]).decisions[1]? = some Decision.Hidden
      ∧ (Decision.Hidden = Decision.Visible ↔
          offCount ((eventsOf [Step.event Message.GPG_OFF (transportOk 5),
              Step.event Message.GPG_ON (transportOk 5)]).take (1 + 1))
            < onCount ((eventsOf [Step.event Message.GPG_OFF (transportOk 5),
              Step.event Message.GPG_ON (transportOk 5)]).take (1 + 1))) :=
  ⟨by decide, C1_decision_visible_iff_on_exceeds_off.1 (connectOk 0)
    [Step.event Message.GPG_OFF (transportOk 5), Step.event Message.GPG_ON (transportOk 5)]
    1 Decision.Hidden (by decide)⟩

/-- C2: after a reconnect that fails, `conn` and `notifier` are `nil`; the next
event that needs a transport call (a show when the decision is Visible, a close
when it is Hidden and the handle is set) panics on the `nil` notifier. -/
theorem C2_event_after_failed_reconnect_panics :
    (SetupLibnotifyNotifier (connectOk 0)
        [Step.event Message.GPG_ON transportDown,
          Step.event Message.U2F_ON (transportOk 5)])
      = ⟨[Call.connectDBus (some 0), Call.SendNotification 0 0 none, Call.notifierClose 0,
            Call.connClose 0, Call.connectDBus none],
          [Decision.Visible, Decision.Visible], Status.panicked⟩
      ∧ (SetupLibnotifyNotifier (connectOk 0)
          [Step.event Message.GPG_ON (transportOk 5),
            Step.event Message.GPG_OFF transportDown,
            Step.event Message.GPG_OFF (transportOk 5)]).status = Status.panicked := by
  constructor <;> decide

/-- C3: in an iteration whose decision is Visible and in which a show call,
the first or the one retried after a reconnect, succeeds with returned id `r`,
that call was sent with the old handle as replace target, the iteration
completes on the session that answered, and the handle after the iteration is
`r` if it was 0 before and the old handle otherwise. -/
theorem C3_successful_show_sets_handle_only_if_none (s : State) (value : Message)
    (t : Transport) (c2 : Session) (h r : Nat)
    (hv : (iteration s value t).decision = Decision.Visible)
    (hr : Call.SendNotification c2 h (some r) ∈ (iteration s value t).calls) :
    h = s.ReplacesID ∧
      (iteration s value t).next
        = some ⟨count s.activeTouchWaits value,
            if s.ReplacesID = 0 then r else s.ReplacesID, some c2⟩ := by
  rw [decision_visible_iff] at hv
  cases hs : s.session with
  | none => simp [iteration, hv, hs] at hr
  | some c =>
    cases h1 : t.send with
    | some id =>
      simp only [iteration, hv, hs, h1, if_true, List.mem_singleton, Call.SendNotification.injEq,
        Option.some.injEq] at hr
      obtain ⟨e1, e2, e3⟩ := hr
      subst e1 e2 e3
      simp [iteration, hv, hs, h1, CompareAndSwapUint32]
    | none =>
      cases hc : connectDBus t.reconnect with
      | none => simp [iteration, reconnect, hv, hs, h1, hc] at hr
      | some c3 =>
        cases h4 : t.resend with
        | none => simp [iteration, reconnect, hv, hs, h1, hc, h4] at hr
        | some id =>
          simp [iteration, reconnect, hv, hs, h1, hc, h4] at hr
          obtain ⟨e1, e2, e3⟩ := hr
          subst e1 e2 e3
          simp [iteration, reconnect, hv, hs, h1, hc, h4, CompareAndSwapUint32]

/-- Witness of C3: a second Visible event on handle 5 keeps handle 5 although
the show returns 9. -/
theorem C3_witness :
    5 = State.ReplacesID ⟨1, 5, some 0⟩ ∧
      (iteration ⟨1, 5, some 0⟩ Message.U2F_ON (transportOk 9)).next
        = some ⟨count (State.activeTouchWaits ⟨1, 5, some 0⟩) Message.U2F_ON,
            if State.ReplacesID ⟨1, 5, some 0⟩ = 0 then 9
              else State.ReplacesID ⟨1, 5, some 0⟩, some 0⟩ :=
  C3_successful_show_sets_handle_only_if_none ⟨1, 5, some 0⟩ Message.U2F_ON (transportOk 9)
    0 5 9 (by decide) (by decide)

/-- C7: the callback `reset` clears the handle exactly when it equals the
dismissed id; from handle 0, the dismissal of `X` and the show-success update
with a non-zero `Y` different from `X` end with handle `Y` in either order. -/
theorem C7_dismissal_is_compare_and_swap :
    (∀ h X : Nat, reset h X = if h = X then 0 else h)
      ∧ (∀ X Y : Nat, X ≠ Y → Y ≠ 0 →
          CompareAndSwapUint32 (reset 0 X) 0 Y = Y ∧ reset (CompareAndSwapUint32 0 0 Y) X = Y) := by
  constructor
  · intro h X
    rfl
  · intro X Y hXY hY
    constructor
    · unfold reset CompareAndSwapUint32
      split <;> simp
    · unfold reset CompareAndSwapUint32
      simp only [if_true]
      rw [if_neg (fun h => hXY h.symm)]

/-- Witness of C7 with `X = 3` and `Y = 4`. -/
theorem C7_witness :
    CompareAndSwapUint32 (reset 0 3) 0 4 = 4 ∧ reset (CompareAndSwapUint32 0 0 4) 3 = 4 :=
  C7_dismissal_is_compare_and_swap.2 3 4 (by decide) (by decide)

/-- C9: an iteration whose decision is Hidden while the handle is 0 issues no
call and changes nothing but the counter. -/
theorem C9_hidden_with_no_handle_is_silent (s : State) (value : Message) (t : Transport)
    (hd : (iteration s value t).decision = Decision.Hidden) (h0 : s.ReplacesID = 0) :
    (iteration s value t).calls = [] ∧
      (iteration s value t).next
        = some ⟨count s.activeTouchWaits value, s.ReplacesID, s.session⟩ := by
  rw [decision_hidden_iff] at hd
  simp [iteration, hd, h0]

/-- Witness of C9: `GPG_OFF` on counter 1 with no handle. -/
theorem C9_witness :
    (iteration ⟨1, 0, some 0⟩ Message.GPG_OFF transportDown).calls = [] ∧
      (iteration ⟨1, 0, some 0⟩ Message.GPG_OFF transportDown).next
        = some ⟨count (State.activeTouchWaits ⟨1, 0, some 0⟩) Message.GPG_OFF,
            State.ReplacesID ⟨1, 0, some 0⟩, State.session ⟨1, 0, some 0⟩⟩ :=
  C9_hidden_with_no_handle_is_silent ⟨1, 0, some 0⟩ Message.GPG_OFF transportDown
    (by decide) rfl

/-- On a live session with a transport that never fails, the loop issues one
`SendNotification` per Visible decision, never reconnects, and ends waiting on
the same session. -/
theorem loop_allSucceed (s : State) (c : Session) (steps : List Step)
    (hs : s.session = some c) (ha : allSucceed steps = true) :
    (loop s steps).calls.countP isShow = (loop s steps).decisions.count Decision.Visible
      ∧ (loop s steps).calls.countP isConnect = 0
      ∧ (loop s steps).decisions.length = steps.length
      ∧ ∃ s2, (loop s steps).status = Status.waiting s2 ∧ s2.session = some c := by
  induction steps generalizing s with
  | nil => simp [loop, hs]
  | cons st rest ih =>
    cases st with
    | closed id => simp [allSucceed] at ha
    | event value t =>
      simp only [allSucceed, Bool.and_eq_true] at ha
      obtain ⟨⟨h1, h2⟩, h3⟩ := ha
      obtain ⟨id, hid⟩ := Option.isSome_iff_exists.mp h1
      by_cases hv : 0 < count s.activeTouchWaits value
      · have hit : iteration s value t =
            ⟨Decision.Visible, [Call.SendNotification c s.ReplacesID (some id)],
              some ⟨count s.activeTouchWaits value, CompareAndSwapUint32 s.ReplacesID 0 id,
                some c⟩⟩ := by
          simp [iteration, hv, hs, hid]
        obtain ⟨i1, i2, i3, i4⟩ := ih ⟨count s.activeTouchWaits value,
          CompareAndSwapUint32 s.ReplacesID 0 id, some c⟩ rfl h3
        simp only [loop, hit]
        refine ⟨?_, ?_, ?_, i4⟩
        · simp [List.countP_cons, isShow, i1]
        · simp [List.countP_cons, isConnect, i2]
        · simp [i3]
      · by_cases h0 : s.ReplacesID = 0
        · have hit : iteration s value t =
              ⟨Decision.Hidden, [], some ⟨count s.activeTouchWaits value, s.ReplacesID,
                s.session⟩⟩ := by
            simp [iteration, hv, h0]
          obtain ⟨i1, i2, i3, i4⟩ := ih ⟨count s.activeTouchWaits value, s.ReplacesID,
            s.session⟩ hs h3
          simp only [loop, hit]
          refine ⟨?_, ?_, ?_, i4⟩
          · simp [i1]
          · simp [i2]
          · simp [i3]
        · have hit : iteration s value t =
              ⟨Decision.Hidden, [Call.CloseNotification c s.ReplacesID true],
                some ⟨count s.activeTouchWaits value, s.ReplacesID, s.session⟩⟩ := by
            simp [iteration, hv, h0, hs, h2]
          obtain ⟨i1, i2, i3, i4⟩ := ih ⟨count s.activeTouchWaits value, s.ReplacesID,
            s.session⟩ hs h3
          simp only [loop, hit]
          refine ⟨?_, ?_, ?_, i4⟩
          · simp [List.countP_cons, isShow, i1]
          · simp [List.countP_cons, isConnect, i2]
          · simp [i3]

/-- C4 (counterexample): on `[GPG_ON, U2F_ON]` with a transport that never
fails and no dismissal, the decision changes from Hidden to Visible once but two
`SendNotification` calls are issued; the second event finds the handle set and
still issues a show call. -/
theorem C4_counterexample :
    allSucceed [Step.event Message.GPG_ON (transportOk 5),
        Step.event Message.U2F_ON (transportOk 5)] = true
      ∧ visibleTransitions Decision.Hidden
          (SetupLibnotifyNotifier (connectOk 0)
            [Step.event Message.GPG_ON (transportOk 5),
              Step.event Message.U2F_ON (transportOk 5)]).decisions = 1
      ∧ (SetupLibnotifyNotifier (connectOk 0)
            [Step.event Message.GPG_ON (transportOk 5),
              Step.event Message.U2F_ON (transportOk 5)]).calls.countP isShow = 2
      ∧ iteration ⟨1, 5, some 0⟩ Message.U2F_ON (transportOk 5)
          = ⟨Decision.Visible, [Call.SendNotification 0 5 (some 5)], some ⟨2, 5, some 0⟩⟩ := by
  decide

/-- C4 (amended): against a transport whose calls all succeed and with no
remote dismissal, the controller issues one show call per event whose decision
is Visible: the number of `SendNotification` calls equals the number of Visible
decisions, one decision is taken per event and no reconnect happens; an event
that leaves the decision Visible while the handle is set issues exactly one
show call, with the handle as replace target, and leaves the handle
unchanged. -/
theorem C4_one_show_per_visible_event :
    (∀ (init : ConnectEnv) (steps : List Step),
        (connectDBus init).isSome = true → allSucceed steps = true →
        (SetupLibnotifyNotifier init steps).calls.countP isShow
            = (SetupLibnotifyNotifier init steps).decisions.count Decision.Visible
          ∧ (SetupLibnotifyNotifier init steps).decisions.length = steps.length
          ∧ (SetupLibnotifyNotifier init steps).calls.countP isConnect = 1)
      ∧ (∀ (s : State) (c : Session) (value : Message) (t : Transport) (id : Nat),
          s.session = some c → s.ReplacesID ≠ 0 → t.send = some id →
          (iteration s value t).decision = Decision.Visible →
          iteration s value t
            = ⟨Decision.Visible, [Call.SendNotification c s.ReplacesID (some id)],
                some ⟨count s.activeTouchWaits value, s.ReplacesID, some c⟩⟩) := by
  constructor
  · intro init steps hi ha
    obtain ⟨c, hc⟩ := Option.isSome_iff_exists.mp hi
    obtain ⟨i1, i2, i3, _⟩ := loop_allSucceed ⟨0, 0, some c⟩ c steps rfl ha
    simp only [SetupLibnotifyNotifier, hc]
    refine ⟨?_, i3, ?_⟩
    · simp [List.countP_cons, isShow, i1]
    · simp [List.countP_cons, isConnect, i2]
  · intro s c value t id hs h0 hid hv
    rw [decision_visible_iff] at hv
    simp [iteration, hv, hs, hid, CompareAndSwapUint32, h0]

/-- Witness of C4 (amended) on `[GPG_ON, U2F_ON]`: two show calls for two
Visible decisions. -/
theorem C4_witness :
    (connectDBus (connectOk 0)).isSome = true
      ∧ allSucceed [Step.event Message.GPG_ON (transportOk 5),
          Step.event Message.U2F_ON (transportOk 5)] = true
      ∧ ((SetupLibnotifyNotifier (connectOk 0)
            [Step.event Message.GPG_ON (transportOk 5),
              Step.event Message.U2F_ON (transportOk 5)]).calls.countP isShow
            = (SetupLibnotifyNotifier (connectOk 0)
                [Step.event Message.GPG_ON (transportOk 5),
                  Step.event Message.U2F_ON (transportOk 5)]).decisions.count Decision.Visible
          ∧ (SetupLibnotifyNotifier (connectOk 0)
                [Step.event Message.GPG_ON (transportOk 5),
                  Step.event Message.U2F_ON (transportOk 5)]).decisions.length
              = [Step.event Message.GPG_ON (transportOk 5),
                  Step.event Message.U2F_ON (transportOk 5)].length
          ∧ (SetupLibnotifyNotifier (connectOk 0)
                [Step.event Message.GPG_ON (transportOk 5),
                  Step.event Message.U2F_ON (transportOk 5)]).calls.countP isConnect = 1) :=
  ⟨by decide, by decide,
    C4_one_show_per_visible_event.1 (connectOk 0)
      [Step.event Message.GPG_ON (transportOk 5), Step.event Message.U2F_ON (transportOk 5)]
      (by decide) (by decide)⟩

/-- Without any signal in flight, `iterationWith` is `iteration`. -/
theorem iterationWith_noSignals (s : State) (value : Message) (t : Transport) :
    iterationWith s value t noSignals = iteration s value t := by
  by_cases hv : 0 < count s.activeTouchWaits value
  · cases hs : s.session with
    | none => simp [iterationWith, iteration, hv, hs]
    | some c =>
      cases h1 : t.send with
      | some id => simp [iterationWith, iteration, noSignals, deliver, hv, hs, h1]
      | none =>
        cases hc : connectDBus t.reconnect with
        | none => simp [iterationWith, iteration, noSignals, deliver, reconnect, hv, hs, h1, hc]
        | some c2 =>
          cases h4 : t.resend <;>
            simp [iterationWith, iteration, noSignals, deliver, reconnect, hv, hs, h1, hc, h4]
  · by_cases h0 : s.ReplacesID = 0
    · simp [iterationWith, iteration, hv, h0]
    · cases hs : s.session with
      | none => simp [iterationWith, iteration, hv, hs, h0]
      | some c =>
        cases hcl : t.close <;>
          simp [iterationWith, iteration, noSignals, deliver, reconnect, hv, hs, h0, hcl]

theorem deliver_zero (ids : List Nat) : deliver 0 ids = 0 := by
  induction ids with
  | nil => rfl
  | cons d rest ih =>
    have h : reset 0 d = 0 := by
      unfold reset CompareAndSwapUint32
      split <;> rfl
    simpa [deliver, h] using ih

theorem deliver_eq (X : Nat) (ids : List Nat) :
    deliver X ids = if X ∈ ids then 0 else X := by
  induction ids with
  | nil => simp [deliver]
  | cons d rest ih =>
    by_cases hd : X = d
    · subst hd
      have h : reset X X = 0 := by simp [reset, CompareAndSwapUint32]
      have := deliver_zero rest
      simp only [deliver] at this
      simp [deliver, h, this]
    · have h : reset X d = X := by simp [reset, CompareAndSwapUint32, hd]
      simp only [deliver] at ih
      simp [deliver, h, ih, hd]

theorem decisionWith_visible_iff (s : State) (value : Message) (t : Transport) (g : Signals) :
    (iterationWith s value t g).decision = Decision.Visible
      ↔ 0 < count s.activeTouchWaits value := by
  unfold iterationWith
  simp only [reconnect]
  constructor
  · intro h
    by_contra hn
    simp only [gt_iff_lt, hn, if_false] at h
    split at h
    · split at h
      · simp at h
      · split at h <;> simp at h
    · simp at h
  · intro h
    simp only [gt_iff_lt, h, if_true]
    split
    · rfl
    · split
      · rfl
      · split
        · rfl
        · split <;> rfl

theorem decisionWith_hidden_iff (s : State) (value : Message) (t : Transport) (g : Signals) :
    (iterationWith s value t g).decision = Decision.Hidden
      ↔ ¬ 0 < count s.activeTouchWaits value := by
  rw [← decisionWith_visible_iff s value t g]
  cases (iterationWith s value t g).decision <;> simp

/-- C5 (counterexample): from handle 0, `GPG_ON` with a show returning 5 sets
the handle to 5; the following `GPG_OFF` makes the decision Hidden and its
`CloseNotification(5)` succeeds; in the run in which no signal has reached
`reset` by then, the handle is still 5 when that iteration completes, and the
show of a later `GPG_ON` is sent with replace target 5. -/
theorem C5_counterexample :
    iteration ⟨0, 0, some 0⟩ Message.GPG_ON (transportOk 5)
        = ⟨Decision.Visible, [Call.SendNotification 0 0 (some 5)], some ⟨1, 5, some 0⟩⟩
      ∧ iteration ⟨1, 5, some 0⟩ Message.GPG_OFF (transportOk 5)
        = ⟨Decision.Hidden, [Call.CloseNotification 0 5 true], some ⟨0, 5, some 0⟩⟩
      ∧ iteration ⟨0, 5, some 0⟩ Message.GPG_ON (transportOk 9)
        = ⟨Decision.Visible, [Call.SendNotification 0 5 (some 9)], some ⟨1, 5, some 0⟩⟩ := by
  decide

/-- C5 (amended): from handle 0 on a live session, a Visible event whose show
returns a non-zero `X` sets the handle to `X`; when the next event makes the
decision Hidden, the iteration issues `CloseNotification(X)` and, that call
succeeding, nothing else, and it does not itself clear the handle: whatever
signals reach `reset` while the close is in flight and between the iterations,
the handle is 0 if `X` is among them and `X` otherwise, and a later Visible
event issues its show with that handle as replace target: 0 exactly when
`reset` has run for `X`. -/
theorem C5_handle_cleared_only_by_reset (s : State) (c : Session) (X : Nat)
    (e1 e2 e3 : Message) (t1 t2 t3 : Transport) (g1 g2 g3 : Signals) (between : List Nat)
    (hX : X ≠ 0) (h0 : s.ReplacesID = 0) (hs : s.session = some c)
    (hv1 : (iterationWith s e1 t1 g1).decision = Decision.Visible) (hsend : t1.send = some X)
    (hh2 : (iterationWith ⟨count s.activeTouchWaits e1, X, some c⟩ e2 t2 g2).decision
      = Decision.Hidden)
    (hclose : t2.close = true)
    (hv3 : (iterationWith ⟨count (count s.activeTouchWaits e1) e2,
        deliver (if X ∈ g2.close then 0 else X) between, some c⟩ e3 t3 g3).decision
      = Decision.Visible) :
    iterationWith s e1 t1 g1
        = ⟨Decision.Visible, [Call.SendNotification c 0 (some X)],
            some ⟨count s.activeTouchWaits e1, X, some c⟩⟩
      ∧ iterationWith ⟨count s.activeTouchWaits e1, X, some c⟩ e2 t2 g2
        = ⟨Decision.Hidden, [Call.CloseNotification c X true],
            some ⟨count (count s.activeTouchWaits e1) e2,
              if X ∈ g2.close then 0 else X, some c⟩⟩
      ∧ deliver (if X ∈ g2.close then 0 else X) between
        = (if X ∈ g2.close ++ between then 0 else X)
      ∧ (iterationWith ⟨count (count s.activeTouchWaits e1) e2,
            deliver (if X ∈ g2.close then 0 else X) between, some c⟩ e3 t3 g3).calls.head?
        = some (Call.SendNotification c (if X ∈ g2.close ++ between then 0 else X) t3.send) := by
  rw [decisionWith_visible_iff] at hv1 hv3
  rw [decisionWith_hidden_iff] at hh2
  have hh2' : ¬ 0 < count (count s.activeTouchWaits e1) e2 := hh2
  simp only at hv3
  have hd : deliver (if X ∈ g2.close then 0 else X) between
      = (if X ∈ g2.close ++ between then 0 else X) := by
    by_cases hm : X ∈ g2.close
    · simp [hm, deliver_zero]
    · simp [hm, deliver_eq]
  refine ⟨?_, ?_, hd, ?_⟩
  · simp [iterationWith, hv1, hs, hsend, h0, deliver_zero, CompareAndSwapUint32]
  · simp [iterationWith, hh2', hX, hclose, deliver_eq]
  · rw [hd]
    cases h3 : t3.send with
    | some id => simp [iterationWith, hv3, h3]
    | none =>
      cases hc : connectDBus t3.reconnect with
      | none => simp [iterationWith, reconnect, hv3, h3, hc]
      | some c2 =>
        cases h4 : t3.resend <;> simp [iterationWith, reconnect, hv3, h3, hc, h4]

/-- Witness of C5 (amended) on `GPG_ON`, `GPG_OFF`, `GPG_ON` with `X = 5`, the
signal for 5 reaching `reset` while the close is in flight. -/
theorem C5_witness :
    iterationWith ⟨0, 0, some 0⟩ Message.GPG_ON (transportOk 5) noSignals
        = ⟨Decision.Visible, [Call.SendNotification 0 0 (some 5)],
            some ⟨count (State.activeTouchWaits ⟨0, 0, some 0⟩) Message.GPG_ON, 5, some 0⟩⟩
      ∧ iterationWith ⟨count (State.activeTouchWaits ⟨0, 0, some 0⟩) Message.GPG_ON, 5, some 0⟩
          Message.GPG_OFF (transportOk 5) ⟨[], [], [], [5]⟩
        = ⟨Decision.Hidden, [Call.CloseNotification 0 5 true],
            some ⟨count (count (State.activeTouchWaits ⟨0, 0, some 0⟩) Message.GPG_ON)
              Message.GPG_OFF,
              if 5 ∈ Signals.close ⟨[], [], [], [5]⟩ then 0 else 5, some 0⟩⟩
      ∧ deliver (if 5 ∈ Signals.close ⟨[], [], [], [5]⟩ then 0 else 5) []
        = (if 5 ∈ Signals.close ⟨[], [], [], [5]⟩ ++ [] then 0 else 5)
      ∧ (iterationWith ⟨count (count (State.activeTouchWaits ⟨0, 0, some 0⟩) Message.GPG_ON)
            Message.GPG_OFF,
            deliver (if 5 ∈ Signals.close ⟨[], [], [], [5]⟩ then 0 else 5) [], some 0⟩
          Message.GPG_ON (transportOk 9) noSignals).calls.head?
        = some (Call.SendNotification 0
            (if 5 ∈ Signals.close ⟨[], [], [], [5]⟩ ++ [] then 0 else 5)
            (Transport.send (transportOk 9))) :=
  C5_handle_cleared_only_by_reset ⟨0, 0, some 0⟩ 0 5 Message.GPG_ON Message.GPG_OFF
    Message.GPG_ON (transportOk 5) (transportOk 5) (transportOk 9) noSignals
    ⟨[], [], [], [5]⟩ noSignals [] (by decide) rfl rfl (by decide) rfl (by decide) rfl
    (by decide)

/-- C8: in an iteration whose decision is Visible, whose first show fails and
whose reconnect succeeds: (1) if the retried show returns `r`, the iteration
makes exactly two show calls and one `connectDBus` call, and the handle is
updated with `r` by the same compare-and-swap as after a first-attempt
success; (2) if the retried show fails too, the iteration makes exactly two
show calls, keeps the handle and the counted event, and the next event, when
its decision is Visible, starts with a show call on the fresh session. -/
theorem C8_reconnect_and_retry_once :
    (∀ (s : State) (c c2 : Session) (value : Message) (t : Transport) (r : Nat),
        s.session = some c → (iteration s value t).decision = Decision.Visible →
        t.send = none → connectDBus t.reconnect = some c2 → t.resend = some r →
        iteration s value t
            = ⟨Decision.Visible,
                [Call.SendNotification c s.ReplacesID none, Call.notifierClose c,
                  Call.connClose c, Call.connectDBus (some c2),
                  Call.SendNotification c2 s.ReplacesID (some r)],
                some ⟨count s.activeTouchWaits value,
                  CompareAndSwapUint32 s.ReplacesID 0 r, some c2⟩⟩
          ∧ (iteration s value t).calls.countP isShow = 2
          ∧ (iteration s value t).calls.countP isConnect = 1
          ∧ (iteration s value ⟨some r, t.reconnect, t.resend, t.close⟩).next
              = some ⟨count s.activeTouchWaits value,
                  CompareAndSwapUint32 s.ReplacesID 0 r, some c⟩)
      ∧ (∀ (s : State) (c c2 : Session) (value : Message) (t : Transport),
          s.session = some c → (iteration s value t).decision = Decision.Visible →
          t.send = none → connectDBus t.reconnect = some c2 → t.resend = none →
          iteration s value t
              = ⟨Decision.Visible,
                  [Call.SendNotification c s.ReplacesID none, Call.notifierClose c,
                    Call.connClose c, Call.connectDBus (some c2),
                    Call.SendNotification c2 s.ReplacesID none],
                  some ⟨count s.activeTouchWaits value, s.ReplacesID, some c2⟩⟩
            ∧ (iteration s value t).calls.countP isShow = 2
            ∧ (iteration s value t).calls.countP isConnect = 1
            ∧ (∀ (value2 : Message) (t2 : Transport),
                (iteration ⟨count s.activeTouchWaits value, s.ReplacesID, some c2⟩ value2
                  t2).decision = Decision.Visible →
                (iteration ⟨count s.activeTouchWaits value, s.ReplacesID, some c2⟩ value2
                  t2).calls.head? = some (Call.SendNotification c2 s.ReplacesID t2.send))) := by
  constructor
  · intro s c c2 value t r hs hv h1 hc h4
    rw [decision_visible_iff] at hv
    have hit : iteration s value t
        = ⟨Decision.Visible,
            [Call.SendNotification c s.ReplacesID none, Call.notifierClose c,
              Call.connClose c, Call.connectDBus (some c2),
              Call.SendNotification c2 s.ReplacesID (some r)],
            some ⟨count s.activeTouchWaits value,
              CompareAndSwapUint32 s.ReplacesID 0 r, some c2⟩⟩ := by
      simp [iteration, reconnect, hv, hs, h1, hc, h4]
    refine ⟨hit, ?_, ?_, ?_⟩
    · rw [hit]; simp [List.countP_cons, isShow]
    · rw [hit]; simp [List.countP_cons, isConnect]
    · simp [iteration, hv, hs]
  · intro s c c2 value t hs hv h1 hc h4
    rw [decision_visible_iff] at hv
    have hit : iteration s value t
        = ⟨Decision.Visible,
            [Call.SendNotification c s.ReplacesID none, Call.notifierClose c,
              Call.connClose c, Call.connectDBus (some c2),
              Call.SendNotification c2 s.ReplacesID none],
            some ⟨count s.activeTouchWaits value, s.ReplacesID, some c2⟩⟩ := by
      simp [iteration, reconnect, hv, hs, h1, hc, h4]
    refine ⟨hit, ?_, ?_, ?_⟩
    · rw [hit]; simp [List.countP_cons, isShow]
    · rw [hit]; simp [List.countP_cons, isConnect]
    · intro value2 t2 hv2
      rw [decision_visible_iff] at hv2
      simp only at hv2
      cases h3 : t2.send with
      | some id => simp [iteration, hv2, h3]
      | none =>
        cases hc3 : connectDBus t2.reconnect with
        | none => simp [iteration, reconnect, hv2, h3, hc3]
        | some c3 =>
          cases h5 : t2.resend <;> simp [iteration, reconnect, hv2, h3, hc3, h5]

/-- Witness of C8: `GPG_ON` from handle 0 on session 0, the first show failing
and the reconnect giving session 1; the retry returns 9 in the first run and
fails in the second, after which `U2F_ON` shows on session 1. -/
theorem C8_witness :
    (iteration ⟨0, 0, some 0⟩ Message.GPG_ON ⟨none, connectOk 1, some 9, true⟩
          = ⟨Decision.Visible,
              [Call.SendNotification 0 (State.ReplacesID ⟨0, 0, some 0⟩) none,
                Call.notifierClose 0, Call.connClose 0, Call.connectDBus (some 1),
                Call.SendNotification 1 (State.ReplacesID ⟨0, 0, some 0⟩) (some 9)],
              some ⟨count (State.activeTouchWaits ⟨0, 0, some 0⟩) Message.GPG_ON,
                CompareAndSwapUint32 (State.ReplacesID ⟨0, 0, some 0⟩) 0 9, some 1⟩⟩)
      ∧ ((iteration ⟨count (State.activeTouchWaits ⟨0, 0, some 0⟩) Message.GPG_ON,
              State.ReplacesID ⟨0, 0, some 0⟩, some 1⟩ Message.U2F_ON
              (transportOk 9)).calls.head?
          = some (Call.SendNotification 1 (State.ReplacesID ⟨0, 0, some 0⟩)
              (Transport.send (transportOk 9)))) :=
  ⟨(C8_reconnect_and_retry_once.1 ⟨0, 0, some 0⟩ 0 1 Message.GPG_ON
      ⟨none, connectOk 1, some 9, true⟩ 9 rfl (by decide) rfl (by decide) rfl).1,
    (C8_reconnect_and_retry_once.2 ⟨0, 0, some 0⟩ 0 1 Message.GPG_ON
      ⟨none, connectOk 1, none, true⟩ rfl (by decide) rfl (by decide) rfl).2.2.2
      Message.U2F_ON (transportOk 9) (by decide)⟩

end notifier
